import Mathlib

/-!
Verification development for the Pathogen libclang extensions
(`clang/tools/libclang/PathogenExtensions.cpp`).

The definitions below are a shallow embedding of the C++ source: each
`pathogen_*` entry point is translated into an executable Lean function over
explicit input structures that package exactly the data the C++ code reads
from the clang AST (cursor kinds, record layout data, ABI argument
classifications, fold results).  Theorems about these functions settle the
frozen specification claims.
-/

/-- Mirrors `PathogenRecordFieldKind` (PathogenExtensions.cpp, line 64). -/
inductive PathogenRecordFieldKind : Type
  | Normal
  | VTablePtr
  | NonVirtualBase
  | VirtualBaseTablePtr
  | VTorDisp
  | VirtualBase
deriving DecidableEq

/-- Mirrors `PathogenRecordField` (PathogenExtensions.cpp, line 74).  The
`NextField` pointer chain is represented by membership in a Lean `List`; the
`Type` / `FieldDeclaration` handles are opaque references into clang and are
omitted.  `new PathogenRecordField()` value-initializes, so the fields that
`AddField` does not set start out `false` / `0`; callers that set them
afterwards (bitfield data, `IsPrimaryBase`) are modelled by constructing the
complete slot before insertion, which is observationally identical because
the C++ code mutates the node just inserted. -/
structure PathogenRecordField : Type where
  Kind : PathogenRecordFieldKind
  Offset : Int
  Name : String
  IsBitField : Bool
  BitFieldStart : Nat
  BitFieldWidth : Nat
  IsPrimaryBase : Bool
deriving DecidableEq

/-- Mirrors `PathogenRecordLayout::AddField` (PathogenExtensions.cpp, line
210): a linear scan advances the insertion point past every existing slot
whose `Offset` is `<=` the new slot's offset, so the new slot lands directly
before the first slot whose offset strictly exceeds it. -/
def AddField : List PathogenRecordField → PathogenRecordField → List PathogenRecordField
  | [], f => [f]
  | x :: xs, f => if x.Offset ≤ f.Offset then x :: AddField xs f else f :: x :: xs

/-- Comparison used for the slot ordering invariant: non-decreasing `Offset`. -/
def slotLE (a b : PathogenRecordField) : Prop := a.Offset ≤ b.Offset

theorem AddField_eq_takeWhile_dropWhile (l : List PathogenRecordField)
    (f : PathogenRecordField) :
    AddField l f =
      l.takeWhile (fun x => decide (x.Offset ≤ f.Offset)) ++
        f :: l.dropWhile (fun x => decide (x.Offset ≤ f.Offset)) := by
  induction l with
  | nil => simp [AddField]
  | cons x xs ih =>
    by_cases h : x.Offset ≤ f.Offset
    · simp [AddField, List.takeWhile_cons, List.dropWhile_cons, h, ih]
    · simp [AddField, List.takeWhile_cons, List.dropWhile_cons, h]

theorem mem_AddField {y : PathogenRecordField} (l : List PathogenRecordField)
    (f : PathogenRecordField) : y ∈ AddField l f ↔ y = f ∨ y ∈ l := by
  induction l with
  | nil => simp [AddField]
  | cons x xs ih =>
    by_cases h : x.Offset ≤ f.Offset
    · simp only [AddField, if_pos h, List.mem_cons, ih]
      try tauto
    · simp only [AddField, if_neg h, List.mem_cons]
      try tauto

theorem AddField_pairwise (f : PathogenRecordField) :
    ∀ l : List PathogenRecordField, l.Pairwise slotLE → (AddField l f).Pairwise slotLE := by
  intro l
  induction l with
  | nil => intro _; simp [AddField, List.pairwise_cons, slotLE]
  | cons x xs ih =>
    intro hp
    rw [List.pairwise_cons] at hp
    by_cases h : x.Offset ≤ f.Offset
    · have : (AddField xs f).Pairwise slotLE := ih hp.2
      simp only [AddField, if_pos h]
      rw [List.pairwise_cons]
      refine ⟨?_, this⟩
      intro y hy
      rcases (mem_AddField xs f).mp hy with rfl | hmem
      · exact h
      · exact hp.1 y hmem
    · simp only [AddField, if_neg h]
      rw [List.pairwise_cons]
      constructor
      · intro y hy
        have hfx : f.Offset ≤ x.Offset := le_of_lt (lt_of_not_le h)
        rcases List.mem_cons.mp hy with rfl | hmem
        · exact hfx
        · exact le_trans hfx (hp.1 y hmem)
      · rw [List.pairwise_cons]
        exact hp

theorem mem_dropWhile_offset_gt {l : List PathogenRecordField} {c : Int}
    (hl : l.Pairwise slotLE) {x : PathogenRecordField}
    (hx : x ∈ l.dropWhile (fun a => decide (a.Offset ≤ c))) : c < x.Offset := by
  induction l with
  | nil => simp [List.dropWhile] at hx
  | cons y ys ih =>
    rw [List.pairwise_cons] at hl
    by_cases h : y.Offset ≤ c
    · rw [List.dropWhile_cons, if_pos (by simp [h])] at hx
      exact ih hl.2 hx
    · rw [List.dropWhile_cons, if_neg (by simp [h])] at hx
      rcases List.mem_cons.mp hx with rfl | hmem
      · exact lt_of_not_le h
      · exact lt_of_lt_of_le (lt_of_not_le h) (hl.1 x hmem)

theorem AddField_filter_offset (l : List PathogenRecordField)
    (f : PathogenRecordField) (o : Int) (hl : l.Pairwise slotLE) :
    (AddField l f).filter (fun s => decide (s.Offset = o)) =
      l.filter (fun s => decide (s.Offset = o)) ++
        (if f.Offset = o then [f] else []) := by
  have hsplit : l.filter (fun s => decide (s.Offset = o)) =
      (l.takeWhile (fun a => decide (a.Offset ≤ f.Offset))).filter
          (fun s => decide (s.Offset = o)) ++
        (l.dropWhile (fun a => decide (a.Offset ≤ f.Offset))).filter
          (fun s => decide (s.Offset = o)) := by
    rw [← List.filter_append, List.takeWhile_append_dropWhile]
  rw [AddField_eq_takeWhile_dropWhile, List.filter_append, List.filter_cons, hsplit]
  by_cases hf : f.Offset = o
  · have hdrop : (l.dropWhile (fun a => decide (a.Offset ≤ f.Offset))).filter
        (fun s => decide (s.Offset = o)) = [] := by
      rw [List.filter_eq_nil_iff]
      intro x hx
      have hgt := mem_dropWhile_offset_gt hl hx
      simp only [decide_eq_true_eq]
      omega
    rw [hdrop, if_pos (by simp [hf]), if_pos hf]
    simp
  · rw [if_neg (by simp [hf]), if_neg hf]
    simp

theorem AddField_filter_not (l : List PathogenRecordField)
    (f : PathogenRecordField) (p : PathogenRecordField → Bool) (hf : p f = false) :
    (AddField l f).filter p = l.filter p := by
  rw [AddField_eq_takeWhile_dropWhile, List.filter_append]
  conv_rhs => rw [← List.takeWhile_append_dropWhile
    (p := fun a => decide (a.Offset ≤ f.Offset)) (l := l)]
  rw [List.filter_append]
  simp [hf]

theorem foldl_AddField_pairwise (seq : List PathogenRecordField) :
    ∀ acc : List PathogenRecordField, acc.Pairwise slotLE →
      (seq.foldl AddField acc).Pairwise slotLE := by
  induction seq with
  | nil => intro acc h; exact h
  | cons f fs ih =>
    intro acc h
    exact ih (AddField acc f) (AddField_pairwise f acc h)

theorem foldl_AddField_filter_offset (o : Int) (seq : List PathogenRecordField) :
    ∀ acc : List PathogenRecordField, acc.Pairwise slotLE →
      (seq.foldl AddField acc).filter (fun s => decide (s.Offset = o)) =
        acc.filter (fun s => decide (s.Offset = o)) ++
          seq.filter (fun s => decide (s.Offset = o)) := by
  induction seq with
  | nil => intro acc _; simp
  | cons f fs ih =>
    intro acc h
    rw [List.foldl_cons, ih (AddField acc f) (AddField_pairwise f acc h),
      AddField_filter_offset acc f o h, List.filter_cons]
    by_cases hf : f.Offset = o
    · simp [hf]
    · simp [hf]

theorem foldl_AddField_filter_not (p : PathogenRecordField → Bool)
    (seq : List PathogenRecordField) (hseq : ∀ f ∈ seq, p f = false) :
    ∀ acc : List PathogenRecordField, (seq.foldl AddField acc).filter p = acc.filter p := by
  induction seq with
  | nil => intro acc; rfl
  | cons f fs ih =>
    intro acc
    rw [List.foldl_cons, ih (fun g hg => hseq g (List.mem_cons_of_mem f hg)),
      AddField_filter_not acc f p (hseq f (List.mem_cons_self f fs))]

theorem foldl_AddField_head_fixed (v : PathogenRecordField) (hv : v.Offset = 0)
    (fs : List PathogenRecordField) (hfs : ∀ f ∈ fs, 0 ≤ f.Offset) :
    ∀ rest : List PathogenRecordField,
      ∃ rest2, fs.foldl AddField (v :: rest) = v :: rest2 := by
  induction fs with
  | nil => intro rest; exact ⟨rest, rfl⟩
  | cons f fs ih =>
    intro rest
    have hf : 0 ≤ f.Offset := hfs f (List.mem_cons_self f fs)
    have hstep : AddField (v :: rest) f = v :: AddField rest f := by
      simp only [AddField]
      rw [if_pos (by rw [hv]; exact hf)]
    rw [List.foldl_cons, hstep]
    exact ih (fun g hg => hfs g (List.mem_cons_of_mem f hg)) (AddField rest f)

/-- One entry of `record->fields()` together with the layout data the source
reads for it: `layout.getFieldOffset(fieldIndex)` (a bit offset, unsigned in
clang) and the bitfield data (PathogenExtensions.cpp, lines 380-400). -/
structure FieldInput : Type where
  name : String
  offsetBits : Nat
  isBitField : Bool
  bitWidth : Nat
deriving DecidableEq

/-- One entry of `cxxRecord->bases()` with the data the source reads:
`base.isVirtual()`, `layout.getBaseClassOffset(baseRecord)` and whether the
base record equals `layout.getPrimaryBase()` (lines 354-371). -/
structure BaseInput : Type where
  isVirtual : Bool
  offset : Int
  isPrimary : Bool
deriving DecidableEq

/-- One entry of `cxxRecord->vbases()` with the data the source reads:
`layout.getVBaseClassOffset(vbase)`, the `hasVtorDisp()` flag from
`layout.getVBaseOffsetsMap()` and whether the virtual base equals the primary
base (lines 402-426). -/
structure VBaseInput : Type where
  offset : Int
  hasVtorDisp : Bool
  isPrimary : Bool
deriving DecidableEq

/-- The C++-specific data `pathogen_GetRecordLayout` reads when
`dyn_cast<CXXRecordDecl>` succeeds: `isDynamicClass()`,
`layout.getPrimaryBase() != nullptr`, `layout.hasOwnVFPtr()`,
`layout.hasOwnVBPtr()`, `layout.getVBPtrOffset()`, the base lists, and the
number of Microsoft vfptr offsets returned by `getVFPtrOffsets` (used only to
count the extracted vtable layouts). -/
structure CxxRecordInfo : Type where
  isDynamicClass : Bool
  hasPrimaryBase : Bool
  hasOwnVFPtr : Bool
  hasOwnVBPtr : Bool
  vbptrOffset : Int
  bases : List BaseInput
  vbases : List VBaseInput
  msVfptrCount : Nat
deriving DecidableEq

/-- Everything `pathogen_GetRecordLayout` reads from the cursor and the
clang AST (PathogenExtensions.cpp, lines 283-451): the cursor-kind check,
the `RecordDecl` cast, `getDefinition()`, the `ASTRecordLayout` numbers, the
optional `CXXRecordDecl` data and the ABI flavor (`IsMsLayout`). -/
structure RecordInput : Type where
  isDeclaration : Bool
  isRecordDecl : Bool
  hasDefinition : Bool
  size : Int
  alignment : Int
  nonVirtualSize : Int
  nonVirtualAlignment : Int
  isMsLayout : Bool
  cxx : Option CxxRecordInfo
  fields : List FieldInput
deriving DecidableEq

/-- Result mirror of `PathogenRecordLayout` (line 197): the `FirstField`
chain as a list, the scalar layout data, and the length of the `FirstVTable`
chain (the vtable entries themselves are opaque clang data not needed by any
claim). -/
structure PathogenRecordLayout : Type where
  fieldList : List PathogenRecordField
  vtableCount : Nat
  Size : Int
  Alignment : Int
  IsCppRecord : Bool
  NonVirtualSize : Int
  NonVirtualAlignment : Int
deriving DecidableEq

/-- The synthetic vtable-pointer slot added at lines 343-352. -/
def vtablePtrSlot (name : String) : PathogenRecordField :=
  { Kind := .VTablePtr, Offset := 0, Name := name,
    IsBitField := false, BitFieldStart := 0, BitFieldWidth := 0, IsPrimaryBase := false }

/-- Non-virtual base slots (lines 354-371): virtual bases are skipped here. -/
def baseSlots (bases : List BaseInput) : List PathogenRecordField :=
  (bases.filter (fun b => !b.isVirtual)).map fun b =>
    { Kind := .NonVirtualBase, Offset := b.offset,
      Name := if b.isPrimary then "primary_base" else "base",
      IsBitField := false, BitFieldStart := 0, BitFieldWidth := 0,
      IsPrimaryBase := b.isPrimary }

/-- A normal field slot (lines 380-400).  `toCharUnitsFromBits` truncates the
bit offset to whole bytes (char width 8); for bitfields the source then
stores the residue bit offset and the bit width on the inserted node. -/
def normalFieldSlot (fi : FieldInput) : PathogenRecordField :=
  { Kind := .Normal, Offset := ((fi.offsetBits / 8 : Nat) : Int), Name := fi.name,
    IsBitField := fi.isBitField,
    BitFieldStart := if fi.isBitField then fi.offsetBits % 8 else 0,
    BitFieldWidth := if fi.isBitField then fi.bitWidth else 0,
    IsPrimaryBase := false }

/-- Virtual base slots (lines 402-426): an optional `vtordisp` slot four
bytes before the virtual base, then the virtual base slot itself. -/
def vbaseSlots (vbases : List VBaseInput) : List PathogenRecordField :=
  vbases.flatMap fun vb =>
    (if vb.hasVtorDisp then
      [{ Kind := .VTorDisp, Offset := vb.offset - 4, Name := "vtordisp",
         IsBitField := false, BitFieldStart := 0, BitFieldWidth := 0,
         IsPrimaryBase := false }]
     else []) ++
    [{ Kind := .VirtualBase, Offset := vb.offset,
       Name := if vb.isPrimary then "primary_virtual_base" else "virtual_base",
       IsBitField := false, BitFieldStart := 0, BitFieldWidth := 0,
       IsPrimaryBase := vb.isPrimary }]

/-- The slots passed to `AddField`, in the order the source calls it:
vtable pointer, non-virtual bases, vbtable pointer, normal fields, virtual
bases (PathogenExtensions.cpp, lines 335-426). -/
def insertionSequence (input : RecordInput) : List PathogenRecordField :=
  (match input.cxx with
   | none => []
   | some c =>
     (if c.isDynamicClass && !c.hasPrimaryBase && !input.isMsLayout then
        [vtablePtrSlot "vtable_pointer"]
      else if c.hasOwnVFPtr then
        [vtablePtrSlot "vftable_pointer"]
      else []) ++
     baseSlots c.bases ++
     (if c.hasOwnVBPtr then
        [{ Kind := .VirtualBaseTablePtr, Offset := c.vbptrOffset,
           Name := "vbtable_pointer", IsBitField := false, BitFieldStart := 0,
           BitFieldWidth := 0, IsPrimaryBase := false }]
      else [])) ++
  input.fields.map normalFieldSlot ++
  (match input.cxx with
   | none => []
   | some c => vbaseSlots c.vbases)

/-- The vtable layouts attached at lines 428-448: one per Microsoft vfptr
offset under the Microsoft ABI, a single Itanium table otherwise; none for
non-dynamic or non-C++ records. -/
def vtableLayoutCount (input : RecordInput) : Nat :=
  match input.cxx with
  | none => 0
  | some c =>
    if c.isDynamicClass then
      (if input.isMsLayout then c.msVfptrCount else 1)
    else 0

/-- The layout constructed once all precondition checks passed
(PathogenExtensions.cpp, lines 323-450).  `new PathogenRecordLayout()`
value-initializes, so the non-virtual numbers stay `0` for plain C records. -/
def buildLayout (input : RecordInput) : PathogenRecordLayout :=
  { fieldList := (insertionSequence input).foldl AddField [],
    vtableCount := vtableLayoutCount input,
    Size := input.size,
    Alignment := input.alignment,
    IsCppRecord := input.cxx.isSome,
    NonVirtualSize := if input.cxx.isSome then input.nonVirtualSize else 0,
    NonVirtualAlignment := if input.cxx.isSome then input.nonVirtualAlignment else 0 }

/-- Mirrors `pathogen_GetRecordLayout` (PathogenExtensions.cpp, line 283):
three guard clauses return null (modelled as `none`), otherwise the fully
constructed layout is returned. -/
def pathogen_GetRecordLayout (input : RecordInput) : Option PathogenRecordLayout :=
  if !input.isDeclaration then none
  else if !input.isRecordDecl then none
  else if !input.hasDefinition then none
  else some (buildLayout input)

theorem pathogen_GetRecordLayout_some (input : RecordInput)
    (layout : PathogenRecordLayout)
    (h : pathogen_GetRecordLayout input = some layout) :
    layout = buildLayout input := by
  unfold pathogen_GetRecordLayout at h
  split_ifs at h
  exact (Option.some.inj h).symm

/-- Claim C1: for every record layout produced by `pathogen_GetRecordLayout`,
the slot list is non-decreasing in `Offset`; among slots with equal `Offset`
the insertion order is preserved (at each offset, the slots appear exactly in
the order `AddField` was called on them); and `AddField` scans to the first
existing slot whose `Offset` strictly exceeds the new slot's `Offset` and
inserts there. -/
theorem recordLayout_sorted_and_stable :
    (∀ (input : RecordInput) (layout : PathogenRecordLayout),
        pathogen_GetRecordLayout input = some layout →
          layout.fieldList.Pairwise slotLE ∧
          ∀ o : Int, layout.fieldList.filter (fun s => decide (s.Offset = o)) =
            (insertionSequence input).filter (fun s => decide (s.Offset = o))) ∧
    (∀ (l : List PathogenRecordField) (f : PathogenRecordField),
        AddField l f =
          l.takeWhile (fun x => decide (x.Offset ≤ f.Offset)) ++
            f :: l.dropWhile (fun x => decide (x.Offset ≤ f.Offset))) := by
  constructor
  · intro input layout h
    have hlayout := pathogen_GetRecordLayout_some input layout h
    subst hlayout
    constructor
    · exact foldl_AddField_pairwise (insertionSequence input) [] List.Pairwise.nil
    · intro o
      have := foldl_AddField_filter_offset o (insertionSequence input) [] List.Pairwise.nil
      simpa [buildLayout] using this
  · exact AddField_eq_takeWhile_dropWhile

/-- Concrete record input used by the C1 witness: a plain C record with two
bitfields sharing byte offset 0 and one field at byte offset 1. -/
def exRecordC1 : RecordInput :=
  { isDeclaration := true, isRecordDecl := true, hasDefinition := true,
    size := 4, alignment := 4, nonVirtualSize := 0, nonVirtualAlignment := 0,
    isMsLayout := false, cxx := none,
    fields := [⟨"a", 0, true, 3⟩, ⟨"b", 3, true, 5⟩, ⟨"c", 8, false, 0⟩] }

theorem recordLayout_sorted_and_stable_witness :
    (buildLayout exRecordC1).fieldList.Pairwise slotLE ∧
    (buildLayout exRecordC1).fieldList.filter (fun s => decide (s.Offset = 0)) =
      (insertionSequence exRecordC1).filter (fun s => decide (s.Offset = 0)) :=
  ⟨(recordLayout_sorted_and_stable.1 exRecordC1 (buildLayout exRecordC1) rfl).1,
   (recordLayout_sorted_and_stable.1 exRecordC1 (buildLayout exRecordC1) rfl).2 0⟩

/-- Claim C2: for a dynamic C++ class with no inheritance (no bases, no
virtual bases, hence no primary base and no vbtable pointer; under the
Microsoft ABI such a class owns its vfptr), the produced slot list begins
with exactly one `VTablePtr` slot at offset 0, named `vtable_pointer` under
the Itanium-style ABI and `vftable_pointer` under the Microsoft ABI, and the
slot list never contains both styles (all `VTablePtr`-kind slots are exactly
that single slot). -/
theorem dynamicNoBase_vtablePtr_first (input : RecordInput) (c : CxxRecordInfo)
    (layout : PathogenRecordLayout)
    (hc : input.cxx = some c)
    (hdyn : c.isDynamicClass = true)
    (hnp : c.hasPrimaryBase = false)
    (hb : c.bases = [])
    (hvb : c.vbases = [])
    (hvbptr : c.hasOwnVBPtr = false)
    (hms : input.isMsLayout = true → c.hasOwnVFPtr = true)
    (hres : pathogen_GetRecordLayout input = some layout) :
    layout.fieldList.head? =
      some (vtablePtrSlot
        (if input.isMsLayout then "vftable_pointer" else "vtable_pointer")) ∧
    layout.fieldList.filter
        (fun s => decide (s.Kind = PathogenRecordFieldKind.VTablePtr)) =
      [vtablePtrSlot
        (if input.isMsLayout then "vftable_pointer" else "vtable_pointer")] := by
  have hlayout := pathogen_GetRecordLayout_some input layout hres
  subst hlayout
  have hseq : insertionSequence input =
      vtablePtrSlot (if input.isMsLayout then "vftable_pointer" else "vtable_pointer") ::
        input.fields.map normalFieldSlot := by
    unfold insertionSequence
    rw [hc]
    rcases hmsb : input.isMsLayout with _ | _
    · simp [hdyn, hnp, hmsb, hb, hvb, hvbptr, baseSlots, vbaseSlots]
    · simp [hdyn, hnp, hmsb, hb, hvb, hvbptr, hms hmsb, baseSlots, vbaseSlots]
  have hfields : (buildLayout input).fieldList =
      (input.fields.map normalFieldSlot).foldl AddField
        [vtablePtrSlot (if input.isMsLayout then "vftable_pointer" else "vtable_pointer")] := by
    simp [buildLayout, hseq, AddField]
  have hoffsets : ∀ f ∈ input.fields.map normalFieldSlot, 0 ≤ f.Offset := by
    intro f hf
    rcases List.mem_map.mp hf with ⟨fi, _, rfl⟩
    exact Int.natCast_nonneg _
  constructor
  · rcases foldl_AddField_head_fixed
        (vtablePtrSlot (if input.isMsLayout then "vftable_pointer" else "vtable_pointer"))
        rfl (input.fields.map normalFieldSlot) hoffsets [] with ⟨rest2, hrest⟩
    rw [hfields, hrest]
    rfl
  · have hnotvt : ∀ f ∈ input.fields.map normalFieldSlot,
        (fun s => decide (s.Kind = PathogenRecordFieldKind.VTablePtr)) f = false := by
      intro f hf
      rcases List.mem_map.mp hf with ⟨fi, _, rfl⟩
      simp [normalFieldSlot]
    rw [hfields, foldl_AddField_filter_not _ _ hnotvt]
    simp [vtablePtrSlot]

/-- Concrete C2 witness input: an Itanium-ABI dynamic class with no bases
and one pointer-sized field after the vtable pointer. -/
def exRecordC2 : RecordInput :=
  { isDeclaration := true, isRecordDecl := true, hasDefinition := true,
    size := 16, alignment := 8, nonVirtualSize := 16, nonVirtualAlignment := 8,
    isMsLayout := false,
    cxx := some { isDynamicClass := true, hasPrimaryBase := false,
                  hasOwnVFPtr := true, hasOwnVBPtr := false, vbptrOffset := 0,
                  bases := [], vbases := [], msVfptrCount := 0 },
    fields := [⟨"x", 64, false, 0⟩] }

theorem dynamicNoBase_vtablePtr_first_witness :
    (buildLayout exRecordC2).fieldList.head? =
      some (vtablePtrSlot "vtable_pointer") ∧
    (buildLayout exRecordC2).fieldList.filter
        (fun s => decide (s.Kind = PathogenRecordFieldKind.VTablePtr)) =
      [vtablePtrSlot "vtable_pointer"] := by
  have h := dynamicNoBase_vtablePtr_first exRecordC2 _ (buildLayout exRecordC2)
    rfl rfl rfl rfl rfl rfl (fun hms => by cases hms) rfl
  simpa using h

/-- Claim C3: `pathogen_GetRecordLayout` returns null exactly when the cursor
is not a declaration, the declaration is not a record, or the record has no
definition (modelled as `none`; the embedding is a total function, so no
exception path exists); in every other case the returned layout is the
complete build: every scalar attribute and the full slot list and vtable
count are populated. -/
theorem getRecordLayout_null_iff (input : RecordInput) :
    (pathogen_GetRecordLayout input = none ↔
      input.isDeclaration = false ∨ input.isRecordDecl = false ∨
        input.hasDefinition = false) ∧
    (∀ layout, pathogen_GetRecordLayout input = some layout →
      layout.Size = input.size ∧
      layout.Alignment = input.alignment ∧
      layout.IsCppRecord = input.cxx.isSome ∧
      layout.NonVirtualSize = (if input.cxx.isSome then input.nonVirtualSize else 0) ∧
      layout.NonVirtualAlignment =
        (if input.cxx.isSome then input.nonVirtualAlignment else 0) ∧
      layout.fieldList = (insertionSequence input).foldl AddField [] ∧
      layout.vtableCount = vtableLayoutCount input) := by
  constructor
  · unfold pathogen_GetRecordLayout
    rcases input.isDeclaration <;> rcases input.isRecordDecl <;>
      rcases input.hasDefinition <;> simp
  · intro layout h
    have := pathogen_GetRecordLayout_some input layout h
    subst this
    simp [buildLayout]

theorem getRecordLayout_null_iff_witness :
    pathogen_GetRecordLayout
      { exRecordC1 with hasDefinition := false } = none ∧
    (buildLayout exRecordC1).Size = 4 := by
  constructor
  · exact (getRecordLayout_null_iff { exRecordC1 with hasDefinition := false }).1.mpr
      (Or.inr (Or.inr rfl))
  · exact ((getRecordLayout_null_iff exRecordC1).2 (buildLayout exRecordC1) rfl).1

/-- Mirrors `PathogenConstantValueKind` (PathogenExtensions.cpp, line 670). -/
inductive PathogenConstantValueKind : Type
  | Unknown
  | NullPointer
  | UnsignedInteger
  | SignedInteger
  | FloatingPoint
  | String
deriving DecidableEq

/-- Mirrors `PathogenConstantString` (line 698): the length-prefixed byte
buffer that `pathogen_ComputeConstantValue` heap-allocates for string
constants (`SizeBytes` plus the inline bytes starting at `FirstByte`). -/
structure PathogenConstantString : Type where
  SizeBytes : Nat
  Bytes : List Nat
deriving DecidableEq

/-- The 64-bit `Value` slot of `PathogenConstantValueInfo` (line 719).  For
numeric kinds it holds a 64-bit pattern; for strings it holds a non-null
heap pointer to a `PathogenConstantString`, modelled as the owned payload
itself (`strPtr`; `malloc` is assumed to succeed as the source does). -/
inductive ConstantValueStorage : Type
  | num (bits : Nat)
  | strPtr (payload : PathogenConstantString)
deriving DecidableEq

/-- Whether the C `Value` field compares unequal to `0`: a numeric pattern
is non-zero, and a pointer returned by `malloc` is non-null. -/
def ConstantValueStorage.isNonZero : ConstantValueStorage → Bool
  | .num n => decide (n ≠ 0)
  | .strPtr _ => true

/-- Mirrors `PathogenConstantValueInfo` (line 704).  `SubKind` is the raw
32-bit pattern of the C `int` (the string kinds may carry the
`WideCharBit = 1 <<< 31` marker). -/
structure PathogenConstantValueInfo : Type where
  HasSideEffects : Bool
  HasUndefinedBehavior : Bool
  Kind : PathogenConstantValueKind
  SubKind : Nat
  Value : ConstantValueStorage
deriving DecidableEq

/-- Model of `llvm::APSInt` as the source reads it: a bit width, a
signedness flag, and the raw two's-complement bit pattern. -/
structure APSInt : Type where
  bitWidth : Nat
  isSigned : Bool
  bits : Nat
deriving DecidableEq

/-- The mathematical integer an `APSInt` denotes: two's-complement
interpretation of the raw bits at `bitWidth` when signed. -/
def APSInt.toInt (x : APSInt) : Int :=
  if x.isSigned ∧ 2 ^ (x.bitWidth - 1) ≤ x.bits then
    (x.bits : Int) - 2 ^ x.bitWidth
  else
    (x.bits : Int)

/-- `APSInt::getExtValue()` cast to `uint64_t` (line 789): the value
sign-extended (signed) or zero-extended (unsigned) to 64 bits, as the
64-bit pattern stored in `info->Value`. -/
def APSInt.getExtValue (x : APSInt) : Nat :=
  (x.toInt % (2 : Int) ^ 64).toNat

/-- Model of `clang::StringLiteral` as the source reads it: the declared
kind tag (`Ascii = 0`, `Wide = 1`, `UTF8 = 2`, `UTF16 = 3`, `UTF32 = 4`,
matching the static assertions at lines 692-696), `getCharByteWidth()`,
`getByteLength()` and the raw bytes. -/
structure StringLiteralInfo : Type where
  kindTag : Nat
  charByteWidth : Nat
  byteLength : Nat
  bytes : List Nat
deriving DecidableEq

/-- `PathogenStringConstantKind::WideCharBit` (line 689): `1 <<< 31`. -/
def WideCharBit : Nat := 2 ^ 31

/-- The `SubKind` stored for a string constant (lines 814-834): the
literal's declared kind, except that the `WideChar` tag is replaced by the
UTF tag matching `getCharByteWidth()` with `WideCharBit` set.  For an
unexpected char width the source hits `assert(false)` and leaves the tag
unchanged, which is what the final catch-all models. -/
def stringSubKind (lit : StringLiteralInfo) : Nat :=
  if lit.kindTag = 1 then
    match lit.charByteWidth with
    | 1 => 2 ||| WideCharBit
    | 2 => 3 ||| WideCharBit
    | 4 => 4 ||| WideCharBit
    | _ => 1
  else lit.kindTag

/-- Model of the `APValue` cases the source distinguishes (lines 784-842),
each carrying the data the source reads from it.  `getKind` tags follow
`clang::APValue::ValueKind` (`Int = 2`, `Float = 3`, `LValue = 7`); other
kinds carry their raw tag. -/
inductive APValue : Type
  | int (v : APSInt)
  | float (sizeInBits : Nat) (bitPattern : Nat)
  | nullPointer
  | lvalueStringLiteral (lit : StringLiteralInfo)
  | lvalueOther
  | other (rawKind : Nat)
deriving DecidableEq

/-- `APValue::getKind()` as an integer, used for the Unknown `SubKind`. -/
def APValue.getKind : APValue → Nat
  | .int _ => 2
  | .float _ _ => 3
  | .nullPointer => 7
  | .lvalueStringLiteral _ => 7
  | .lvalueOther => 7
  | .other rawKind => rawKind

/-- The population of `*info` after a successful fold (lines 773-842): the
side-effect flags, then the kind dispatch chain `isInt` / `isFloat` /
`isNullPointer` / `isLValue`-with-string-literal, defaulting to `Unknown`
with the raw `APValue` kind as `SubKind`. -/
def populateInfo (se ub : Bool) (v : APValue) : PathogenConstantValueInfo :=
  let base : PathogenConstantValueInfo :=
    { HasSideEffects := se, HasUndefinedBehavior := ub,
      Kind := .Unknown, SubKind := v.getKind, Value := .num 0 }
  match v with
  | .int i =>
      { base with
        Kind := if i.isSigned then .SignedInteger else .UnsignedInteger,
        SubKind := i.bitWidth,
        Value := .num i.getExtValue }
  | .float sizeInBits bitPattern =>
      { base with Kind := .FloatingPoint, SubKind := sizeInBits,
                  Value := .num bitPattern }
  | .nullPointer =>
      { base with Kind := .NullPointer, SubKind := 0, Value := .num 0 }
  | .lvalueStringLiteral lit =>
      { base with Kind := .String, SubKind := stringSubKind lit,
                  Value := .strPtr ⟨lit.byteLength, lit.bytes⟩ }
  | .lvalueOther => base
  | .other _ => base

/-- The outcome of `Expr::EvaluateAsRValue` as the source reads it: either
success with the flags and folded value, or failure carrying the state of
the `result.Diag` pointer (`none` models a null `Diag`; `some n` a non-null
diagnostics vector with `n` entries). -/
inductive FoldResult : Type
  | ok (hasSideEffects hasUndefinedBehavior : Bool) (val : APValue)
  | fail (diag : Option Nat)
deriving DecidableEq

/-- The cursor shapes `pathogen_ComputeConstantValue` distinguishes (lines
726-758): a variable declaration (with or without an initializer), a
declaration that is not a variable, an expression, or anything else.  The
`FoldResult` payload is what `EvaluateAsRValue` would report for the
initializer / expression. -/
inductive ConstantCursorInput : Type
  | declVar (hasInit : Bool) (fold : FoldResult)
  | declNotVar
  | expr (fold : FoldResult)
  | notDeclNotExpr
deriving DecidableEq

/-- The observable behaviour of one `pathogen_ComputeConstantValue` call:
the boolean return, the value written through `error` (if any), and the
value written through `info` (if any). -/
structure ComputeResult : Type where
  returned : Bool
  errorWritten : Option String
  infoWritten : Option PathogenConstantValueInfo
deriving DecidableEq

/-- The tail of `pathogen_ComputeConstantValue` after the expression is in
hand (lines 760-844): run the fold; on failure write the error only when
the fold engine produced diagnostics; on success populate `*info` and leave
`error` untouched. -/
def evalFoldResult : FoldResult → ComputeResult
  | .fail diag =>
      { returned := false,
        errorWritten :=
          match diag with
          | some n => if 0 < n then some "EvaluateAsRValue returned diagnostics." else none
          | none => none,
        infoWritten := none }
  | .ok se ub v =>
      { returned := true, errorWritten := none,
        infoWritten := some (populateInfo se ub v) }

/-- Mirrors `pathogen_ComputeConstantValue` (PathogenExtensions.cpp, line
726): the cursor dispatch, then `evalFoldResult`. -/
def pathogen_ComputeConstantValue : ConstantCursorInput → ComputeResult
  | .declNotVar =>
      { returned := false,
        errorWritten := some "The cursor is not a variable declaration or expression.",
        infoWritten := none }
  | .notDeclNotExpr =>
      { returned := false,
        errorWritten := some "The cursor is not a variable declaration or expression.",
        infoWritten := none }
  | .declVar false _ =>
      { returned := false, errorWritten := none, infoWritten := none }
  | .declVar true fold => evalFoldResult fold
  | .expr fold => evalFoldResult fold

/-- Mirrors `pathogen_DeletePathogenConstantValueInfo` (line 848).  The
input is the pointed-to info (`none` for a null pointer); the result pairs
the info after the call with whether `free` ran on the string payload. -/
def pathogen_DeletePathogenConstantValueInfo :
    Option PathogenConstantValueInfo → Option PathogenConstantValueInfo × Bool
  | none => (none, false)
  | some info =>
      if info.Kind = PathogenConstantValueKind.String ∧ info.Value.isNonZero = true then
        (some { info with Value := .num 0 }, true)
      else
        (some info, false)

/-- Claim C6: when `pathogen_ComputeConstantValue` folds an integer
constant, the result kind follows the operand's own signedness, `SubKind`
is the operand's bit width, and `Value` is the 64-bit sign-extension
(signed) or zero-extension (unsigned) of the integer; in particular `-1` as
a 32-bit signed integer yields `SignedInteger` / `32` /
`0xFFFFFFFFFFFFFFFF`, and `200` as an 8-bit unsigned integer yields
`UnsignedInteger` / `8` / `200`. -/
theorem computeConstantValue_integer_extension :
    (∀ (se ub : Bool) (i : APSInt),
        (populateInfo se ub (.int i)).Kind =
          (if i.isSigned then PathogenConstantValueKind.SignedInteger
           else PathogenConstantValueKind.UnsignedInteger) ∧
        (populateInfo se ub (.int i)).SubKind = i.bitWidth ∧
        (populateInfo se ub (.int i)).Value =
          ConstantValueStorage.num ((i.toInt % (2 : Int) ^ 64).toNat)) ∧
    pathogen_ComputeConstantValue
        (.expr (.ok false false (.int ⟨32, true, 4294967295⟩))) =
      { returned := true, errorWritten := none,
        infoWritten := some
          { HasSideEffects := false, HasUndefinedBehavior := false,
            Kind := .SignedInteger, SubKind := 32,
            Value := .num 18446744073709551615 } } ∧
    pathogen_ComputeConstantValue
        (.expr (.ok false false (.int ⟨8, false, 200⟩))) =
      { returned := true, errorWritten := none,
        infoWritten := some
          { HasSideEffects := false, HasUndefinedBehavior := false,
            Kind := .UnsignedInteger, SubKind := 8,
            Value := .num 200 } } := by
  refine ⟨?_, ?_, ?_⟩
  · intro se ub i
    exact ⟨rfl, rfl, rfl⟩
  · decide
  · decide

/-- Claim C7: when the folded value is a string literal whose declared
encoding is the wide-character encoding, the `String` `SubKind` becomes
UTF-8 / UTF-16 / UTF-32 according to the literal's per-character byte
width (1 / 2 / 4), always with `WideCharBit` set, and the raw `WideChar`
tag (`1`) is never the resulting `SubKind`. -/
theorem computeConstantValue_wide_string_retag (se ub : Bool)
    (lit : StringLiteralInfo) (hwide : lit.kindTag = 1)
    (hw : lit.charByteWidth = 1 ∨ lit.charByteWidth = 2 ∨ lit.charByteWidth = 4) :
    (populateInfo se ub (.lvalueStringLiteral lit)).Kind =
      PathogenConstantValueKind.String ∧
    (populateInfo se ub (.lvalueStringLiteral lit)).SubKind =
      ((if lit.charByteWidth = 1 then 2
        else if lit.charByteWidth = 2 then 3 else 4) ||| WideCharBit) ∧
    (populateInfo se ub (.lvalueStringLiteral lit)).SubKind ≠ 1 := by
  rcases hw with hw | hw | hw <;>
    refine ⟨rfl, ?_, ?_⟩ <;>
      simp [populateInfo, stringSubKind, hwide, hw, WideCharBit]

theorem computeConstantValue_wide_string_retag_witness :
    (populateInfo false false
        (.lvalueStringLiteral ⟨1, 2, 4, [104, 0, 105, 0]⟩)).Kind =
      PathogenConstantValueKind.String ∧
    (populateInfo false false
        (.lvalueStringLiteral ⟨1, 2, 4, [104, 0, 105, 0]⟩)).SubKind =
      (3 ||| WideCharBit) ∧
    (populateInfo false false
        (.lvalueStringLiteral ⟨1, 2, 4, [104, 0, 105, 0]⟩)).SubKind ≠ 1 := by
  have h := computeConstantValue_wide_string_retag false false
    ⟨1, 2, 4, [104, 0, 105, 0]⟩ rfl (Or.inr (Or.inl rfl))
  simpa using h

/-- Claim C8: the four-state contract of `pathogen_ComputeConstantValue`:
a cursor that is neither a variable declaration nor an expression fails
with a descriptive error; a variable declaration without initializer fails
without touching the error output; a failed fold writes the error output
exactly when the fold engine produced diagnostics; and whenever the call
returns true the error output is untouched. -/
theorem computeConstantValue_four_state_contract :
    (pathogen_ComputeConstantValue .declNotVar =
      { returned := false,
        errorWritten := some "The cursor is not a variable declaration or expression.",
        infoWritten := none } ∧
     pathogen_ComputeConstantValue .notDeclNotExpr =
      { returned := false,
        errorWritten := some "The cursor is not a variable declaration or expression.",
        infoWritten := none }) ∧
    (∀ fold, pathogen_ComputeConstantValue (.declVar false fold) =
      { returned := false, errorWritten := none, infoWritten := none }) ∧
    (∀ diag, (evalFoldResult (.fail diag)).returned = false ∧
      ((evalFoldResult (.fail diag)).errorWritten ≠ none ↔
        ∃ n, diag = some n ∧ 0 < n)) ∧
    (∀ fold, pathogen_ComputeConstantValue (.declVar true fold) = evalFoldResult fold ∧
             pathogen_ComputeConstantValue (.expr fold) = evalFoldResult fold) ∧
    (∀ c, (pathogen_ComputeConstantValue c).returned = true →
      (pathogen_ComputeConstantValue c).errorWritten = none) := by
  refine ⟨⟨rfl, rfl⟩, fun fold => rfl, ?_, fun fold => ⟨rfl, rfl⟩, ?_⟩
  · intro diag
    refine ⟨rfl, ?_⟩
    rcases diag with _ | n
    · simp [evalFoldResult]
    · by_cases hn : 0 < n
      · simp [evalFoldResult, hn]
      · simp [evalFoldResult, hn]
  · intro c h
    match c with
    | .declNotVar => simp [pathogen_ComputeConstantValue] at h
    | .notDeclNotExpr => simp [pathogen_ComputeConstantValue] at h
    | .declVar false fold => simp [pathogen_ComputeConstantValue] at h
    | .declVar true (.fail diag) =>
        simp [pathogen_ComputeConstantValue, evalFoldResult] at h
    | .declVar true (.ok se ub v) => rfl
    | .expr (.fail diag) =>
        simp [pathogen_ComputeConstantValue, evalFoldResult] at h
    | .expr (.ok se ub v) => rfl

theorem computeConstantValue_four_state_contract_witness :
    (pathogen_ComputeConstantValue (.expr (.ok false false .nullPointer))).returned = true ∧
    (pathogen_ComputeConstantValue (.expr (.ok false false .nullPointer))).errorWritten = none :=
  ⟨rfl, computeConstantValue_four_state_contract.2.2.2.2
    (.expr (.ok false false .nullPointer)) rfl⟩

/-- Claim C10: `pathogen_DeletePathogenConstantValueInfo` is null-safe and
idempotent: a null pointer is a no-op; the payload is freed exactly when
`Kind` is `String` and `Value` is non-zero, in which case `Value` is set to
`0`; a second call on the same info never frees again; and non-`String`
kinds never free anything. -/
theorem deleteConstantValueInfo_null_safe_idempotent :
    (pathogen_DeletePathogenConstantValueInfo none = (none, false)) ∧
    (∀ info, (pathogen_DeletePathogenConstantValueInfo (some info)).2 = true ↔
      (info.Kind = PathogenConstantValueKind.String ∧ info.Value.isNonZero = true)) ∧
    (∀ info, (pathogen_DeletePathogenConstantValueInfo (some info)).1 =
      some (if info.Kind = PathogenConstantValueKind.String ∧ info.Value.isNonZero = true
            then { info with Value := .num 0 } else info)) ∧
    (∀ x, (pathogen_DeletePathogenConstantValueInfo
            (pathogen_DeletePathogenConstantValueInfo x).1).2 = false) ∧
    (∀ info, info.Kind ≠ PathogenConstantValueKind.String →
      pathogen_DeletePathogenConstantValueInfo (some info) = (some info, false)) := by
  refine ⟨rfl, ?_, ?_, ?_, ?_⟩
  · intro info
    by_cases h : info.Kind = PathogenConstantValueKind.String ∧ info.Value.isNonZero = true
    · simp [pathogen_DeletePathogenConstantValueInfo, h]
    · simp [pathogen_DeletePathogenConstantValueInfo, h]
  · intro info
    by_cases h : info.Kind = PathogenConstantValueKind.String ∧ info.Value.isNonZero = true
    · simp [pathogen_DeletePathogenConstantValueInfo, h]
    · simp [pathogen_DeletePathogenConstantValueInfo, h]
  · intro x
    rcases x with _ | info
    · rfl
    · rcases info with ⟨se, ub, k, sk, v⟩
      rcases v with n | payload
      · by_cases hk : k = PathogenConstantValueKind.String
        · subst hk
          by_cases hn : n = 0
          · subst hn
            simp [pathogen_DeletePathogenConstantValueInfo,
              ConstantValueStorage.isNonZero]
          · simp [pathogen_DeletePathogenConstantValueInfo,
              ConstantValueStorage.isNonZero, hn]
        · simp [pathogen_DeletePathogenConstantValueInfo,
            ConstantValueStorage.isNonZero, hk]
      · by_cases hk : k = PathogenConstantValueKind.String
        · subst hk
          simp [pathogen_DeletePathogenConstantValueInfo,
            ConstantValueStorage.isNonZero]
        · simp [pathogen_DeletePathogenConstantValueInfo,
            ConstantValueStorage.isNonZero, hk]
  · intro info h
    have hcond : ¬(info.Kind = PathogenConstantValueKind.String ∧
        info.Value.isNonZero = true) := fun hc => h hc.1
    simp [pathogen_DeletePathogenConstantValueInfo, hcond]

theorem deleteConstantValueInfo_witness :
    pathogen_DeletePathogenConstantValueInfo
        (some { HasSideEffects := false, HasUndefinedBehavior := false,
                Kind := .SignedInteger, SubKind := 32, Value := .num 5 }) =
      (some { HasSideEffects := false, HasUndefinedBehavior := false,
              Kind := .SignedInteger, SubKind := 32, Value := .num 5 }, false) :=
  deleteConstantValueInfo_null_safe_idempotent.2.2.2.2
    { HasSideEffects := false, HasUndefinedBehavior := false,
      Kind := .SignedInteger, SubKind := 32, Value := .num 5 } (by decide)

/-- Mirrors `PathogenArgPassingKind` (PathogenExtensions.cpp, line 637). -/
inductive PathogenArgPassingKind : Type
  | CanPassInRegisters
  | CannotPassInRegisters
  | CanNeverPassInRegisters
  | Invalid
deriving DecidableEq

/-- What `pathogen_getArgPassingRestrictions` reads from its cursor:
whether `clang_isDeclaration(cursor.kind)` holds, and the result of
`dyn_cast_or_null<RecordDecl>` — `some k` when the declaration is a record
whose `getArgPassingRestrictions()` is `k`, `none` when the cast yields a
null pointer. -/
structure ArgPassingCursor : Type where
  isDeclaration : Bool
  recordRestrictions : Option PathogenArgPassingKind
deriving DecidableEq

/-- Execution outcome of a call that may dereference a null pointer:
either a value, or the undefined behaviour of a null dereference. -/
inductive ExecOutcome (α : Type) : Type
  | ok (value : α)
  | nullDeref
deriving DecidableEq

/-- Mirrors `pathogen_getArgPassingRestrictions` (PathogenExtensions.cpp,
line 650): only the cursor-kind precondition is checked; the result of
`dyn_cast_or_null<RecordDecl>` is dereferenced with no null check, so a
declaration cursor whose declaration is not a record reaches
`record->getArgPassingRestrictions()` with `record == nullptr`. -/
def pathogen_getArgPassingRestrictions (c : ArgPassingCursor) :
    ExecOutcome PathogenArgPassingKind :=
  if !c.isDeclaration then .ok .Invalid
  else
    match c.recordRestrictions with
    | none => .nullDeref
    | some k => .ok k

/-- Claim C4 (refuted — code bug): on a declaration cursor whose
declaration is not a record, `pathogen_getArgPassingRestrictions`
dereferences the null `RecordDecl` pointer instead of returning the
`Invalid` sentinel that the claim (and every sibling entry point, e.g.
`pathogen_getOperatorOverloadInfo` at line 614 and
`pathogen_GetSpecializationKind` at line 1013) requires. -/
theorem argPassingRestrictions_nullDeref_on_nonRecord :
    pathogen_getArgPassingRestrictions ⟨true, none⟩ = ExecOutcome.nullDeref ∧
    pathogen_getArgPassingRestrictions ⟨true, none⟩ ≠
      ExecOutcome.ok PathogenArgPassingKind.Invalid ∧
    pathogen_getArgPassingRestrictions ⟨false, none⟩ =
      ExecOutcome.ok PathogenArgPassingKind.Invalid := by
  refine ⟨rfl, ?_, rfl⟩
  decide

/-- Mirrors `PathogenArgumentKind` (PathogenExtensions.cpp, line 1606),
a 1:1 numeric mirror of `clang::CodeGen::ABIArgInfo::Kind`. -/
inductive PathogenArgumentKind : Type
  | Direct
  | Extend
  | Indirect
  | IndirectAliased
  | Ignore
  | Expand
  | CoerceAndExpand
  | InAlloca
deriving DecidableEq

/-- The raw state of a `clang::CodeGen::ABIArgInfo` as the source queries
it: the kind plus the stored predicate bits and auxiliary integers.  The
`...Raw` booleans are the raw stored data returned by the kind-guarded
accessors. -/
structure ABIArgInfo : Type where
  kind : PathogenArgumentKind
  coerceToTypeRaw : Bool
  paddingTypeRaw : Bool
  inRegRaw : Bool
  canBeFlattenedRaw : Bool
  signExtRaw : Bool
  indirectByValRaw : Bool
  indirectRealignRaw : Bool
  sretAfterThisRaw : Bool
  unpaddedCoerceAndExpandTypeRaw : Bool
  inAllocaSRetRaw : Bool
  directOffset : Nat
  indirectAlign : Nat
  indirectAddrSpace : Nat
  inAllocaFieldIndex : Nat
deriving DecidableEq

def ABIArgInfo.isDirect (i : ABIArgInfo) : Bool :=
  decide (i.kind = PathogenArgumentKind.Direct)

def ABIArgInfo.isExtend (i : ABIArgInfo) : Bool :=
  decide (i.kind = PathogenArgumentKind.Extend)

def ABIArgInfo.isIndirect (i : ABIArgInfo) : Bool :=
  decide (i.kind = PathogenArgumentKind.Indirect)

/-- Modelled from the spec: `clang::CodeGen::ABIArgInfo::canHaveCoerceToType`
(CGFunctionInfo.h, code of this repository not under src/).  Per the flag
documentation mirrored at PathogenExtensions.cpp lines 1632-1633, a
coerce-to type exists only for the Direct, Extend, or CoerceAndExpand
kinds. -/
def ABIArgInfo.canHaveCoerceToType (i : ABIArgInfo) : Bool :=
  decide (i.kind = PathogenArgumentKind.Direct) ||
  decide (i.kind = PathogenArgumentKind.Extend) ||
  decide (i.kind = PathogenArgumentKind.CoerceAndExpand)

/-- Modelled from the spec: `clang::CodeGen::ABIArgInfo::getPaddingType`
returns the stored padding type only when the kind can have one
(CGFunctionInfo.h, code of this repository not under src/).  Per the flag
documentation mirrored at PathogenExtensions.cpp lines 1634-1635, a padding
type exists only for the Direct, Extend, Indirect, or Expand kinds. -/
def ABIArgInfo.canHavePaddingType (i : ABIArgInfo) : Bool :=
  decide (i.kind = PathogenArgumentKind.Direct) ||
  decide (i.kind = PathogenArgumentKind.Extend) ||
  decide (i.kind = PathogenArgumentKind.Indirect) ||
  decide (i.kind = PathogenArgumentKind.Expand)

/-- Whether `info.getPaddingType() != nullptr` observes a padding type. -/
def ABIArgInfo.getPaddingTypeNonNull (i : ABIArgInfo) : Bool :=
  i.canHavePaddingType && i.paddingTypeRaw

/-- The bit set of `PathogenArgumentFlags` (PathogenExtensions.cpp, line
1629), one boolean per flag bit; all bits start out `None = 0`. -/
structure PathogenArgumentFlags : Type where
  hasCoerceToTypeType : Bool
  hasPaddingType : Bool
  hasUnpaddedCoerceAndExpandType : Bool
  paddingInRegister : Bool
  isInAllocaSRet : Bool
  isIndirectByVal : Bool
  isIndirectRealign : Bool
  isSRetAfterThis : Bool
  isInRegister : Bool
  canBeFlattened : Bool
  isSignExtended : Bool
deriving DecidableEq

def PathogenArgumentFlags.none2 : PathogenArgumentFlags :=
  ⟨false, false, false, false, false, false, false, false, false, false, false⟩

/-- Mirrors `PathogenArgumentInfo` (line 1657) without the opaque `Type`
handle. -/
structure PathogenArgumentInfo : Type where
  Kind : PathogenArgumentKind
  Flags : PathogenArgumentFlags
  Extra : Nat
  Extra2 : Nat
deriving DecidableEq

/-- Mirrors `pathogen_CreateArgumentInfo` (PathogenExtensions.cpp, line
1687): the three kind-guarded common flags, then the per-kind switch that
adds the kind-specific flags and auxiliary integers.  (`Extra2` is only
written in the `IndirectAliased` case in the source; the model zeroes it
elsewhere.) -/
def pathogen_CreateArgumentInfo (info : ABIArgInfo) : PathogenArgumentInfo :=
  let flags := PathogenArgumentFlags.none2
  let flags := if info.canHaveCoerceToType && info.coerceToTypeRaw then
      { flags with hasCoerceToTypeType := true } else flags
  let flags := if info.getPaddingTypeNonNull then
      { flags with hasPaddingType := true } else flags
  let flags := if (info.isDirect || info.isExtend || info.isIndirect) && info.inRegRaw then
      { flags with isInRegister := true } else flags
  match info.kind with
  | .Direct =>
      let flags := if info.canBeFlattenedRaw then
          { flags with canBeFlattened := true } else flags
      { Kind := .Direct, Flags := flags, Extra := info.directOffset, Extra2 := 0 }
  | .Extend =>
      let flags := if info.signExtRaw then
          { flags with isSignExtended := true } else flags
      { Kind := .Extend, Flags := flags, Extra := info.directOffset, Extra2 := 0 }
  | .Indirect =>
      let flags := if info.indirectByValRaw then
          { flags with isIndirectByVal := true } else flags
      let flags := if info.indirectRealignRaw then
          { flags with isIndirectRealign := true } else flags
      let flags := if info.sretAfterThisRaw then
          { flags with isSRetAfterThis := true } else flags
      { Kind := .Indirect, Flags := flags, Extra := info.indirectAlign, Extra2 := 0 }
  | .IndirectAliased =>
      let flags := if info.indirectRealignRaw then
          { flags with isIndirectRealign := true } else flags
      { Kind := .IndirectAliased, Flags := flags,
        Extra := info.indirectAlign, Extra2 := info.indirectAddrSpace }
  | .Ignore =>
      { Kind := .Ignore, Flags := flags, Extra := 0, Extra2 := 0 }
  | .Expand =>
      { Kind := .Expand, Flags := flags, Extra := 0, Extra2 := 0 }
  | .CoerceAndExpand =>
      let flags := if info.unpaddedCoerceAndExpandTypeRaw then
          { flags with hasUnpaddedCoerceAndExpandType := true } else flags
      { Kind := .CoerceAndExpand, Flags := flags, Extra := 0, Extra2 := 0 }
  | .InAlloca =>
      let flags := if info.inAllocaSRetRaw then
          { flags with isInAllocaSRet := true } else flags
      { Kind := .InAlloca, Flags := flags, Extra := info.inAllocaFieldIndex, Extra2 := 0 }

set_option maxHeartbeats 1600000 in
/-- Claim C5: every `PathogenArgumentInfo` produced by
`pathogen_CreateArgumentInfo` sets each flag only with its valid passing
kinds: IsSignExtended only with Extend; IsIndirectByVal and IsSRetAfterThis
only with Indirect; IsIndirectRealign only with Indirect or
IndirectAliased; CanBeFlattened only with Direct; IsInAllocaSRet only with
InAlloca; IsInRegister only with Direct, Extend, or Indirect;
HasCoerceToTypeType only with Direct, Extend, or CoerceAndExpand;
HasPaddingType only with Direct, Extend, Indirect, or Expand;
HasUnpaddedCoerceAndExpandType only with CoerceAndExpand. -/
theorem createArgumentInfo_flag_kind_invariant (info : ABIArgInfo) :
    ((pathogen_CreateArgumentInfo info).Flags.isSignExtended = true →
      (pathogen_CreateArgumentInfo info).Kind = .Extend) ∧
    ((pathogen_CreateArgumentInfo info).Flags.isIndirectByVal = true →
      (pathogen_CreateArgumentInfo info).Kind = .Indirect) ∧
    ((pathogen_CreateArgumentInfo info).Flags.isSRetAfterThis = true →
      (pathogen_CreateArgumentInfo info).Kind = .Indirect) ∧
    ((pathogen_CreateArgumentInfo info).Flags.isIndirectRealign = true →
      (pathogen_CreateArgumentInfo info).Kind = .Indirect ∨
      (pathogen_CreateArgumentInfo info).Kind = .IndirectAliased) ∧
    ((pathogen_CreateArgumentInfo info).Flags.canBeFlattened = true →
      (pathogen_CreateArgumentInfo info).Kind = .Direct) ∧
    ((pathogen_CreateArgumentInfo info).Flags.isInAllocaSRet = true →
      (pathogen_CreateArgumentInfo info).Kind = .InAlloca) ∧
    ((pathogen_CreateArgumentInfo info).Flags.isInRegister = true →
      (pathogen_CreateArgumentInfo info).Kind = .Direct ∨
      (pathogen_CreateArgumentInfo info).Kind = .Extend ∨
      (pathogen_CreateArgumentInfo info).Kind = .Indirect) ∧
    ((pathogen_CreateArgumentInfo info).Flags.hasCoerceToTypeType = true →
      (pathogen_CreateArgumentInfo info).Kind = .Direct ∨
      (pathogen_CreateArgumentInfo info).Kind = .Extend ∨
      (pathogen_CreateArgumentInfo info).Kind = .CoerceAndExpand) ∧
    ((pathogen_CreateArgumentInfo info).Flags.hasPaddingType = true →
      (pathogen_CreateArgumentInfo info).Kind = .Direct ∨
      (pathogen_CreateArgumentInfo info).Kind = .Extend ∨
      (pathogen_CreateArgumentInfo info).Kind = .Indirect ∨
      (pathogen_CreateArgumentInfo info).Kind = .Expand) ∧
    ((pathogen_CreateArgumentInfo info).Flags.hasUnpaddedCoerceAndExpandType = true →
      (pathogen_CreateArgumentInfo info).Kind = .CoerceAndExpand) := by
  rcases info with ⟨k, c, p, ir, cbf, se, ibv, irr, sret, unp, ias, d1, d2, d3, d4⟩
  cases k <;>
    simp only [pathogen_CreateArgumentInfo, ABIArgInfo.canHaveCoerceToType,
      ABIArgInfo.getPaddingTypeNonNull, ABIArgInfo.canHavePaddingType,
      ABIArgInfo.isDirect, ABIArgInfo.isExtend, ABIArgInfo.isIndirect,
      PathogenArgumentFlags.none2] <;>
    split_ifs <;>
    simp_all

/-- Mirrors `PathogenTypeSizes` (PathogenExtensions.cpp, line 1916): one
`int` field per interop struct, led by the size of `PathogenTypeSizes`
itself. -/
structure PathogenTypeSizes : Type where
  sizeSelf : Nat
  sizeRecordLayout : Nat
  sizeRecordField : Nat
  sizeVTable : Nat
  sizeVTableEntry : Nat
  sizeOperatorOverloadInfo : Nat
  sizeConstantString : Nat
  sizeConstantValueInfo : Nat
  sizeMacroInformation : Nat
  sizeTemplateInstantiationMetrics : Nat
  sizeCodeGenerator : Nat
  sizeArgumentInfo : Nat
  sizeArrangedFunction : Nat
deriving DecidableEq

/-- `sizeof(PathogenTypeSizes)`: 13 4-byte `int` fields.  The concrete
`sizeof` values model an LP64 x86-64 target; claim C9 depends only on the
equality test against this constant, not on its numeric value. -/
def sizeofPathogenTypeSizes : Nat := 52

/-- The fully populated size report written when the version check passes
(PathogenExtensions.cpp, lines 1943-1954), with `sizeof` values of the
interop structs on an LP64 x86-64 target. -/
def populatedTypeSizes (sizes : PathogenTypeSizes) : PathogenTypeSizes :=
  { sizes with
    sizeRecordLayout := 56,
    sizeRecordField := 112,
    sizeVTable := 24,
    sizeVTableEntry := 80,
    sizeOperatorOverloadInfo := 32,
    sizeConstantString := 16,
    sizeConstantValueInfo := 24,
    sizeMacroInformation := 72,
    sizeTemplateInstantiationMetrics := 32,
    sizeCodeGenerator := 16,
    sizeArgumentInfo := 40,
    sizeArrangedFunction := 64 }

/-- Mirrors `pathogen_GetTypeSizes` (PathogenExtensions.cpp, line 1935):
if the caller-supplied leading field does not equal
`sizeof(PathogenTypeSizes)` the function returns false without writing any
field; otherwise it writes every size field and returns true.  The result
pairs the boolean return with the struct contents after the call. -/
def pathogen_GetTypeSizes (sizes : PathogenTypeSizes) : Bool × PathogenTypeSizes :=
  if sizes.sizeSelf ≠ sizeofPathogenTypeSizes then
    (false, sizes)
  else
    (true, populatedTypeSizes sizes)

/-- Claim C9: `pathogen_GetTypeSizes` fails closed: on a size mismatch it
returns false and leaves the caller's struct untouched (no partial
population); on a match it returns true and every size field is
populated. -/
theorem getTypeSizes_fails_closed :
    (∀ sizes : PathogenTypeSizes, sizes.sizeSelf ≠ sizeofPathogenTypeSizes →
      pathogen_GetTypeSizes sizes = (false, sizes)) ∧
    (∀ sizes : PathogenTypeSizes, sizes.sizeSelf = sizeofPathogenTypeSizes →
      (pathogen_GetTypeSizes sizes).1 = true ∧
      (pathogen_GetTypeSizes sizes).2 = populatedTypeSizes sizes ∧
      (pathogen_GetTypeSizes sizes).2.sizeRecordLayout = 56 ∧
      (pathogen_GetTypeSizes sizes).2.sizeRecordField = 112 ∧
      (pathogen_GetTypeSizes sizes).2.sizeVTable = 24 ∧
      (pathogen_GetTypeSizes sizes).2.sizeVTableEntry = 80 ∧
      (pathogen_GetTypeSizes sizes).2.sizeOperatorOverloadInfo = 32 ∧
      (pathogen_GetTypeSizes sizes).2.sizeConstantString = 16 ∧
      (pathogen_GetTypeSizes sizes).2.sizeConstantValueInfo = 24 ∧
      (pathogen_GetTypeSizes sizes).2.sizeMacroInformation = 72 ∧
      (pathogen_GetTypeSizes sizes).2.sizeTemplateInstantiationMetrics = 32 ∧
      (pathogen_GetTypeSizes sizes).2.sizeCodeGenerator = 16 ∧
      (pathogen_GetTypeSizes sizes).2.sizeArgumentInfo = 40 ∧
      (pathogen_GetTypeSizes sizes).2.sizeArrangedFunction = 64) := by
  constructor
  · intro sizes h
    simp [pathogen_GetTypeSizes, h]
  · intro sizes h
    simp [pathogen_GetTypeSizes, h, populatedTypeSizes]

/-- A caller struct whose leading field carries the wrong size. -/
def mismatchedTypeSizes : PathogenTypeSizes :=
  ⟨48, 0, 0, 0, 0, 0, 0, 0, 0, 0, 0, 0, 0⟩

/-- A caller struct whose leading field carries the expected size. -/
def matchedTypeSizes : PathogenTypeSizes :=
  ⟨52, 0, 0, 0, 0, 0, 0, 0, 0, 0, 0, 0, 0⟩

theorem getTypeSizes_fails_closed_witness :
    pathogen_GetTypeSizes mismatchedTypeSizes = (false, mismatchedTypeSizes) ∧
    (pathogen_GetTypeSizes matchedTypeSizes).1 = true ∧
    (pathogen_GetTypeSizes matchedTypeSizes).2.sizeRecordLayout = 56 := by
  have h1 := getTypeSizes_fails_closed.1 mismatchedTypeSizes (by decide)
  have h2 := getTypeSizes_fails_closed.2 matchedTypeSizes (by decide)
  exact ⟨h1, h2.1, h2.2.2.1⟩

/-- A sign-extended Extend classification used by the C5 witness. -/
def exExtendArg : ABIArgInfo :=
  { kind := .Extend, coerceToTypeRaw := true, paddingTypeRaw := true,
    inRegRaw := true, canBeFlattenedRaw := false, signExtRaw := true,
    indirectByValRaw := false, indirectRealignRaw := false,
    sretAfterThisRaw := false, unpaddedCoerceAndExpandTypeRaw := false,
    inAllocaSRetRaw := false, directOffset := 0, indirectAlign := 0,
    indirectAddrSpace := 0, inAllocaFieldIndex := 0 }

theorem createArgumentInfo_flag_kind_invariant_witness :
    (pathogen_CreateArgumentInfo exExtendArg).Flags.isSignExtended = true ∧
    (pathogen_CreateArgumentInfo exExtendArg).Kind = PathogenArgumentKind.Extend :=
  ⟨by decide, (createArgumentInfo_flag_kind_invariant exExtendArg).1 (by decide)⟩
